import Mathlib

/-
Verification of the agentic data pipeline (src/engine.py, src/agent.py,
src/app.py) against its natural-language specification.

The embedding is shallow: pandas dataframes become the `Dataset` structure
(named columns in order, an index label per row, and the rows of cells);
external libraries (file parsers, the DuckDB engine, the language model,
the vector backend, the clock) become oracle parameters; Python exceptions
become `Except` results; the Streamlit session state becomes `AppState`
and each button handler becomes one `Action` of the explicit step function
`stepApp`.
-/

namespace ADP

/-- A cell of a tabular dataset: the opaque values the pipeline moves around. -/
inductive Cell where
  | str (s : String)
  | int (n : Int)
  | null
deriving DecidableEq

/-- String rendering of a cell, as Python str() produces when the indexer
stringifies values and index labels. -/
def cellStr : Cell → String
  | Cell.str s => s
  | Cell.int n => toString n
  | Cell.null => "None"

/-- A pandas-style dataframe: column names in order, one index label per row,
and the rows of cells (each row aligned with `cols`). -/
structure Dataset where
  cols : List String
  idx : List Cell
  rows : List (List Cell)
deriving DecidableEq

/-- pd.DataFrame() with no arguments: zero rows and zero columns. -/
def emptyDataset : Dataset := { cols := [], idx := [], rows := [] }

/-- df.head n: the first n rows, keeping their index labels and the columns. -/
def Dataset.head (d : Dataset) (n : Nat) : Dataset :=
  { cols := d.cols, idx := d.idx.take n, rows := d.rows.take n }

/-- The default RangeIndex 0..n-1 that pandas attaches to a freshly built frame. -/
def rangeIdx (n : Nat) : List Cell := (List.range n).map (fun i => Cell.int (Int.ofNat i))

/-- The dataset as it comes back from a parquet file written with index=False:
the cells and columns are intact and the index is the default range. -/
def withDefaultIndex (d : Dataset) : Dataset :=
  { d with idx := rangeIdx d.rows.length }

/- ----- Character-level helpers modelling the Python string operations ----- -/

/-- Whether the first list is a prefix of the second (Boolean, decidable). -/
def startsWithChars : List Char → List Char → Bool
  | [], _ => true
  | _ :: _, [] => false
  | a :: as, b :: bs => a == b && startsWithChars as bs

/-- Python substring membership `needle in hay`, over char lists. -/
def containsChars : List Char → List Char → Bool
  | [], needle => needle.isEmpty
  | c :: t, needle => startsWithChars needle (c :: t) || containsChars t needle

/-- Python `needle in hay` on strings. -/
def containsSub (hay needle : String) : Bool := containsChars hay.data needle.data

/-- Python str.lower. -/
def pyLower (s : String) : String := ⟨s.data.map Char.toLower⟩

def isSpaceChar (c : Char) : Bool := c == ' ' || c == '\t' || c == '\n' || c == '\r'

/-- Python str.strip: drop leading and trailing whitespace. -/
def pyStrip (s : String) : String :=
  ⟨((s.data.dropWhile isSpaceChar).reverse.dropWhile isSpaceChar).reverse⟩

/-- Left-to-right non-overlapping replacement of `pat` by `rep`, fuelled by the
input length so the recursion is structural. -/
def replAux (pat rep : List Char) : Nat → List Char → List Char
  | _, [] => []
  | 0, l => l
  | Nat.succ fuel, c :: rest =>
      if pat.isEmpty = false && startsWithChars pat (c :: rest) then
        rep ++ replAux pat rep fuel (rest.drop (pat.length - 1))
      else
        c :: replAux pat rep fuel rest

/-- Python str.replace: replace every non-overlapping occurrence, left to right. -/
def pyReplace (s pat rep : String) : String :=
  ⟨replAux pat.data rep.data s.data.length s.data⟩

/-- Accumulator splitter for Python str.split on a dot. -/
def splitDotAux : List Char → List Char → List (List Char)
  | acc, [] => [acc.reverse]
  | acc, c :: rest =>
      if c == '.' then acc.reverse :: splitDotAux [] rest
      else splitDotAux (c :: acc) rest

/-- file name.split(".")[-1]: the declared file type in app.py. -/
def fileType (file_name : String) : String :=
  ⟨(splitDotAux [] file_name.data).getLastD []⟩

/-- file name.split(".")[0]: the dataset name in app.py. -/
def baseName (file_name : String) : String :=
  ⟨(splitDotAux [] file_name.data).headD []⟩

/- ----- Python exceptions surfaced by the ingestor ----- -/

/-- Exception values in the ingestion path: the ValueError raised for an
unsupported format tag, and the RuntimeError the catch-all handler re-raises. -/
inductive PyError where
  | valueError (msg : String)
  | runtimeError (msg : String)
deriving DecidableEq

/-- Python str(e) on an exception: its message. -/
def pyStr : PyError → String
  | PyError.valueError m => m
  | PyError.runtimeError m => m

/-- An uploaded file is opaque bytes to the embedding. -/
abbrev FileObj := String

/-- DataIngestor.read_file (engine.py): dispatch on the declared type inside a
try block whose except clause wraps every failure in a RuntimeError carrying
the message of the underlying exception. The four parsing libraries are
external and passed in as oracles; the pdf branch builds the synthetic
two-column frame of page texts and 1-based page numbers. -/
def read_file (pCsv pExcel pJson : FileObj → Except PyError Dataset)
    (pPdf : FileObj → Except PyError (List String))
    (file_obj : FileObj) (file_type : String) : Except PyError Dataset :=
  let body : Except PyError Dataset :=
    if file_type = "csv" then pCsv file_obj
    else if file_type = "excel" then pExcel file_obj
    else if file_type = "json" then pJson file_obj
    else if file_type = "pdf" then
      match pPdf file_obj with
      | Except.error e => Except.error e
      | Except.ok text =>
          Except.ok { cols := ["content", "page"],
                      idx := rangeIdx text.length,
                      rows := (List.range text.length).map (fun i =>
                        [Cell.str (text.getD i ""), Cell.int (Int.ofNat i + 1)]) }
    else Except.error (PyError.valueError ("Unsupported format: " ++ file_type))
  match body with
  | Except.ok d => Except.ok d
  | Except.error e => Except.error (PyError.runtimeError ("Ingestion failed: " ++ pyStr e))

/- ----- StorageManager (engine.py) ----- -/

def STORAGE_PATH : String := "./data_lake"

/-- The parquet path for a dataset name under the content root. -/
def parquetPath (dataset_name : String) : String :=
  STORAGE_PATH ++ "/" ++ dataset_name ++ ".parquet"

/-- The data lake directory: parquet files keyed by dataset name, most recent
write first (lookup takes the first hit, so re-commit overwrites). -/
abbrev Store := List (String × Dataset)

def findStore : Store → String → Option Dataset
  | [], _ => none
  | p :: t, m => if p.1 = m then some p.2 else findStore t m

/-- StorageManager.save_to_bronze: write df to the parquet file for the name
(index=False drops the index) and return the path. -/
def save_to_bronze (store : Store) (df : Dataset) (dataset_name : String) : Store × String :=
  ((dataset_name, withDefaultIndex df) :: store, parquetPath dataset_name)

/-- StorageManager.load_dataset: read the parquet file back if it exists,
otherwise return the empty frame. -/
def load_dataset (store : Store) (dataset_name : String) : Dataset :=
  match findStore store dataset_name with
  | some d => d
  | none => emptyDataset

/-- A single-quote character as a string (Python wraps the path in quotes). -/
def sq : String := (Char.ofNat 39).toString

/-- StorageManager.execute_sql: substitute the literal CURRENT_TABLE with the
quoted parquet path for dataset_name, then hand the query to the DuckDB
engine, an external oracle. -/
def execute_sql (engine : String → Except String Dataset)
    (query : String) (dataset_name : String) : Except String Dataset :=
  engine (pyReplace query "CURRENT_TABLE" (sq ++ parquetPath dataset_name ++ sq))

/- ----- SearchIndexer (engine.py) ----- -/

/-- One vector-store entry as SearchIndexer.index_data inserts it. -/
structure VectorEntry where
  id : String
  document : String
  metadata : List (String × Cell)
deriving DecidableEq

/-- SearchIndexer.index_data: documents are the stringified values of the key
column, ids are the stringified labels of df.index, metadata is the full row
as a record. A missing column raises a KeyError. Batching in blocks of 100 has
no semantic effect, so the entries are modelled as one flat list. -/
def index_data (df : Dataset) (collection_name : String) (key_col : String) :
    Except String (List VectorEntry) :=
  match df.cols.findIdx? (fun c => c == key_col) with
  | none => Except.error ("KeyError: " ++ key_col)
  | some j =>
      Except.ok ((df.idx.zip df.rows).map (fun p =>
        { id := cellStr p.1,
          document := cellStr (p.2.getD j Cell.null),
          metadata := df.cols.zip p.2 }))

/- ----- TransformationAgent (agent.py) ----- -/

/-- Python truthiness of the api_key attribute: None and "" are falsy. -/
def truthy : Option String → Bool
  | none => false
  | some s => !(s == "")

/-- The text-to-SQL prompt built from the column names and the rule text. -/
def mkPrompt (cols : List String) (rule_description : String) : String :=
  "You are a data engineer. given the dataframe with columns " ++ toString cols ++
  ", write a DuckDB SQL query to transform the data according to this rule: " ++
  "\"" ++ rule_description ++ "\"" ++ ". The table name is " ++
  sq ++ "CURRENT_TABLE" ++ sq ++ ". Return ONLY the SQL string."

/-- Strip the code-fence decoration from the model response:
response.strip().replace("```sql", "").replace("```", ""). -/
def stripFences (response : String) : String :=
  pyReplace (pyReplace (pyStrip response) "```sql" "") "```" ""

/-- TransformationAgent.apply_business_rule: with a truthy credential, run the
language-model path inside a try whose except returns the input frame; the
model call and the DuckDB execution are the fallible oracles. With no
credential, the keyword fallback: a description containing "filter" (case
insensitive) truncates to the first 10 rows, anything else passes through. -/
def apply_business_rule (api_key : Option String)
    (llm : String → Except String String) (engine : String → Except String Dataset)
    (df : Dataset) (rule_description : String) (rule_name : String) : Dataset :=
  if truthy api_key then
    match llm (mkPrompt df.cols rule_description) with
    | Except.error _ => df
    | Except.ok response =>
        match execute_sql engine (stripFences response) "temp_staging" with
        | Except.error _ => df
        | Except.ok res => res
  else
    if containsSub (pyLower rule_description) "filter" then df.head 10
    else df

/-- TransformationAgent.get_rule_dictionary: the fixed four named rules. -/
def get_rule_dictionary : List (String × String) :=
  [("clean_emails", "Remove rows with invalid email formats"),
   ("standardize_currency", "Convert all revenue columns to USD"),
   ("remove_outliers", "Remove z-score > 3 in numeric columns"),
   ("top_performers", "Filter top 10% by sales")]

/- ----- PipelineController (app.py session state and button handlers) ----- -/

/-- The Streamlit session state owned by the controller. -/
structure AppState where
  data_state : Option Dataset
  current_step : Nat
  logs : List String
  dataset_name : String
  index_col : Option String
deriving DecidableEq

/-- The initial session state of app.py. -/
def initState : AppState :=
  { data_state := none, current_step := 0, logs := [],
    dataset_name := "dataset", index_col := none }

/-- One log line: "[HH:MM:SS] message" with the clock value passed in. -/
def mkLogEntry (now msg : String) : String := "[" ++ now ++ "] " ++ msg

/-- The log helper of app.py: append one timestamped entry. -/
def logMsg (s : AppState) (now msg : String) : AppState :=
  { s with logs := s.logs ++ [mkLogEntry now msg] }

/-- The discrete user actions of the app, one per button or input handler.
`commit` and `buildIndex` carry the success flag of the external write or
vector backend; the other failure modes are decided by the oracles. -/
inductive Action where
  | ingest (file_name : String) (file : FileObj)
  | commit (writeOk : Bool)
  | buildIndex (key_col : String) (backendOk : Bool)
  | search (query : String)
  | proceed
  | executeAgentJob (rule_name : String) (rule_input : String)
  | finalize
  | reset
deriving DecidableEq

/-- The external collaborators of one session: parsers, model, engine, key. -/
structure Ext where
  pCsv : FileObj → Except PyError Dataset
  pExcel : FileObj → Except PyError Dataset
  pJson : FileObj → Except PyError Dataset
  pPdf : FileObj → Except PyError (List String)
  llm : String → Except String String
  engine : String → Except String Dataset
  api_key : Option String

/-- The step function of app.py: each action runs only at the step whose
screen shows its button, mutates the session state exactly as the handler
does, and threads the data-lake directory. An action raised and not caught
(parquet write failure, vector backend failure, missing column) leaves the
session state unchanged, which is what an uncaught Streamlit exception does. -/
def stepApp (E : Ext) (now : String) (s : AppState) (store : Store) :
    Action → AppState × Store
  | Action.ingest file_name file =>
      if s.current_step = 0 then
        match read_file E.pCsv E.pExcel E.pJson E.pPdf file (fileType file_name) with
        | Except.ok df =>
            let s1 := { s with data_state := some df, dataset_name := baseName file_name }
            let s2 := logMsg s1 now
              ("Ingested " ++ toString df.rows.length ++ " rows from " ++ file_name)
            ({ s2 with current_step := 1 }, store)
        | Except.error e => (logMsg s now ("Error: " ++ pyStr e), store)
      else (s, store)
  | Action.commit writeOk =>
      if s.current_step = 1 then
        match s.data_state with
        | some df =>
            if writeOk then
              let r := save_to_bronze store df s.dataset_name
              let s1 := logMsg s now ("Data persisted to " ++ r.2)
              ({ s1 with current_step := 2 }, r.1)
            else (s, store)
        | none => (s, store)
      else (s, store)
  | Action.buildIndex key_col backendOk =>
      if s.current_step = 2 then
        match s.data_state with
        | some df =>
            match index_data df "demo_collection" key_col with
            | Except.ok _ =>
                if backendOk then
                  let s1 := logMsg s now ("Vector index built on column: " ++ key_col)
                  ({ s1 with index_col := some key_col, current_step := 3 }, store)
                else (s, store)
            | Except.error _ => (s, store)
        | none => (s, store)
      else (s, store)
  | Action.search _ => (s, store)
  | Action.proceed =>
      if s.current_step = 3 then ({ s with current_step := 4 }, store) else (s, store)
  | Action.executeAgentJob rule_name rule_input =>
      if s.current_step = 4 then
        match s.data_state with
        | some df =>
            let new_df := apply_business_rule E.api_key E.llm E.engine df rule_input rule_name
            let s1 := { s with data_state := some new_df }
            (logMsg s1 now ("Applied rule: " ++ rule_name), store)
        | none => (s, store)
      else (s, store)
  | Action.finalize =>
      if s.current_step = 4 then ({ s with current_step := 5 }, store) else (s, store)
  | Action.reset =>
      if s.current_step = 5 then
        ({ s with current_step := 0, data_state := none }, store)
      else (s, store)

/-- Fold a list of commits into the store, as successive save_to_bronze calls. -/
def commitAll (ops : List (Dataset × String)) (store : Store) : Store :=
  ops.foldl (fun st p => (save_to_bronze st p.1 p.2).1) store

/- ----- Concrete fixtures for the closed witness and counterexample theorems ----- -/

/-- A model oracle that always times out. -/
def noLlm : String → Except String String := fun _ => Except.error "timeout"

/-- A fenced model response, as the spec's code-fence stripping expects. -/
def fencedResponse : String := "```sql SELECT * FROM CURRENT_TABLE```"

/-- A model oracle that returns the fenced query. -/
def okLlm : String → Except String String := fun _ => Except.ok fencedResponse

/-- An engine oracle that always rejects the query. -/
def noEngine : String → Except String Dataset := fun _ => Except.error "Catalog Error"

/-- An engine oracle that reports the exact query text it received, as the
single column name of its result frame. -/
def spyEngine : String → Except String Dataset :=
  fun q => Except.ok { cols := [q], idx := [], rows := [] }

/-- A parser oracle that always fails. -/
def csvFail : FileObj → Except PyError Dataset :=
  fun _ => Except.error (PyError.valueError "parse boom")

/-- A pdf parser oracle that always fails. -/
def pdfFail : FileObj → Except PyError (List String) :=
  fun _ => Except.error (PyError.valueError "parse boom")

/-- A small two-row frame with the default range index. -/
def dfSample : Dataset :=
  { cols := ["a", "b"],
    idx := [Cell.int 0, Cell.int 1],
    rows := [[Cell.int 1, Cell.str "x"], [Cell.int 2, Cell.str "y"]] }

/-- A twelve-row frame, long enough to make head 10 truncate. -/
def dfTwelve : Dataset :=
  { cols := ["v"], idx := rangeIdx 12,
    rows := (List.range 12).map (fun i => [Cell.int (Int.ofNat i)]) }

/-- The query the agent actually sends to the engine for `fencedResponse`:
fences stripped, CURRENT_TABLE substituted with the temp_staging parquet path. -/
def C4query : String :=
  pyReplace (stripFences fencedResponse) "CURRENT_TABLE" (sq ++ parquetPath "temp_staging" ++ sq)

/-- An external environment with a configured credential, a model that answers
`fencedResponse`, and the spy engine. -/
def extAI : Ext :=
  { pCsv := csvFail, pExcel := csvFail, pJson := csvFail, pPdf := pdfFail,
    llm := okLlm, engine := spyEngine, api_key := some "sk-demo" }

/-- A session at stage 3 holding the sample frame under the name "sales". -/
def stage3State : AppState :=
  { data_state := some dfSample, current_step := 3, logs := [],
    dataset_name := "sales", index_col := some "a" }

/-- A session at stage 4 holding the sample frame under the name "sales". -/
def stage4State : AppState :=
  { data_state := some dfSample, current_step := 4, logs := [],
    dataset_name := "sales", index_col := some "a" }

/-- A session at stage 5 with one surviving log entry. -/
def stage5State : AppState :=
  { data_state := some dfSample, current_step := 5,
    logs := [mkLogEntry "09:00:00" "Ingested 2 rows from sales.csv"],
    dataset_name := "sales", index_col := some "a" }

/- ----- C3 ----- -/

/-- C3: with a configured model credential, any failure in the language-model
path — the model call failing (credential rejected, timeout) or the generated
SQL failing in the engine (malformed SQL) — is caught inside
apply_business_rule, which returns the original input dataset unchanged
instead of propagating the error. -/
theorem C3_llm_failure_swallowed (api_key : Option String)
    (llm : String → Except String String) (engine : String → Except String Dataset)
    (df : Dataset) (rd rn : String)
    (hkey : truthy api_key = true)
    (hfail : (∃ m, llm (mkPrompt df.cols rd) = Except.error m) ∨
      (∃ r m, llm (mkPrompt df.cols rd) = Except.ok r ∧
        execute_sql engine (stripFences r) "temp_staging" = Except.error m)) :
    apply_business_rule api_key llm engine df rd rn = df := by
  rcases hfail with ⟨m, hm⟩ | ⟨r, m, hr, hm⟩
  · simp [apply_business_rule, hkey, hm]
  · simp [apply_business_rule, hkey, hr, hm]

/-- Witness for C3 at a concrete input: a timing-out model with a configured
key leaves the sample frame untouched. -/
theorem C3_llm_failure_swallowed_witness :
    apply_business_rule (some "sk-demo") noLlm noEngine dfSample
      "Remove rows with invalid email formats" "clean_emails" = dfSample :=
  C3_llm_failure_swallowed (some "sk-demo") noLlm noEngine dfSample
    "Remove rows with invalid email formats" "clean_emails" (by decide)
    (Or.inl ⟨"timeout", rfl⟩)

/- ----- C4 ----- -/

/-- C4 counterexample: at stage 4 with the current dataset named "sales", the
agent job routes its model-generated SQL to the engine with the substituted
parquet path of the fixed key "temp_staging" — the spy engine records a query
that references the temp_staging path and not the path of "sales" — so the
storage key used for the query is not the current dataset's name. -/
theorem C4_counterexample :
    (stepApp extAI "12:00:00" stage4State []
      (Action.executeAgentJob "Custom" "keep all rows")).1.data_state
      = some { cols := [C4query], idx := [], rows := [] } ∧
    containsSub C4query (parquetPath "temp_staging") = true ∧
    containsSub C4query (parquetPath "sales") = false := by
  refine ⟨by decide, by decide, by decide⟩

/-- C4 amended: when a credential is configured and the model answers, the
agent strips code fences from the response and executes the result through
execute_sql, but always against the fixed storage key "temp_staging" — the
placeholder CURRENT_TABLE is replaced with the quoted temp_staging parquet
path, regardless of the current dataset's name, which apply_business_rule is
never given. -/
theorem C4_query_uses_temp_staging_key (api_key : Option String)
    (llm : String → Except String String) (engine : String → Except String Dataset)
    (df : Dataset) (rd rn r : String)
    (hkey : truthy api_key = true)
    (hllm : llm (mkPrompt df.cols rd) = Except.ok r) :
    apply_business_rule api_key llm engine df rd rn =
      (match engine (pyReplace (stripFences r) "CURRENT_TABLE"
          (sq ++ parquetPath "temp_staging" ++ sq)) with
       | Except.ok res => res
       | Except.error _ => df) := by
  cases hE : engine (pyReplace (stripFences r) "CURRENT_TABLE"
      (sq ++ parquetPath "temp_staging" ++ sq)) with
  | ok res => simp [apply_business_rule, hkey, hllm, execute_sql, hE]
  | error m => simp [apply_business_rule, hkey, hllm, execute_sql, hE]

/-- Witness for C4 (amended) at a concrete input: the spy engine receives
exactly the temp_staging-substituted query. -/
theorem C4_query_uses_temp_staging_key_witness :
    apply_business_rule (some "sk-demo") okLlm spyEngine dfSample "keep all rows" "Custom"
      = { cols := [C4query], idx := [], rows := [] } := by
  rw [C4_query_uses_temp_staging_key (some "sk-demo") okLlm spyEngine dfSample
    "keep all rows" "Custom" fencedResponse (by decide) rfl]
  rfl

/- ----- C5 ----- -/

/-- C5: with no credential configured, a rule description whose lowercase form
contains "filter" yields the first 10 rows of the frame — columns and the kept
cell values unchanged, at most 10 rows — and every other description yields
the frame unchanged. -/
theorem C5_fallback (api_key : Option String)
    (llm : String → Except String String) (engine : String → Except String Dataset)
    (df : Dataset) (rd rn : String)
    (hkey : truthy api_key = false) :
    (containsSub (pyLower rd) "filter" = true →
       apply_business_rule api_key llm engine df rd rn = df.head 10 ∧
       (df.head 10).cols = df.cols ∧
       (df.head 10).rows = df.rows.take 10 ∧
       (df.head 10).rows.length ≤ 10) ∧
    (containsSub (pyLower rd) "filter" = false →
       apply_business_rule api_key llm engine df rd rn = df) := by
  constructor
  · intro h
    refine ⟨by simp [apply_business_rule, hkey, h], rfl, rfl, ?_⟩
    simp only [Dataset.head, List.length_take]
    exact Nat.min_le_left 10 _
  · intro h
    simp [apply_business_rule, hkey, h]

/-- Witness for C5 at concrete inputs: the predefined "Filter top 10% by
sales" rule truncates the twelve-row frame to exactly its first 10 rows, and a
description without "filter" passes the frame through unchanged. -/
theorem C5_fallback_witness :
    apply_business_rule none noLlm noEngine dfTwelve "Filter top 10% by sales"
      "top_performers" = dfTwelve.head 10 ∧
    (dfTwelve.head 10).rows.length = 10 ∧
    apply_business_rule none noLlm noEngine dfTwelve "Convert all revenue columns to USD"
      "standardize_currency" = dfTwelve := by
  refine ⟨((C5_fallback none noLlm noEngine dfTwelve "Filter top 10% by sales"
      "top_performers" (by decide)).1 (by decide)).1, by decide,
    (C5_fallback none noLlm noEngine dfTwelve "Convert all revenue columns to USD"
      "standardize_currency" (by decide)).2 (by decide)⟩

/- ----- C6 ----- -/

/-- C6 counterexample: at the concrete declared type "xml" the reader does
fail, but the surfaced exception is the RuntimeError wrapper — exactly the
same error type the second equation shows wrapping an underlying csv parse
failure — so the unsupported-format failure is not an error type distinct
from the wrapper for parse failures. -/
theorem C6_counterexample :
    read_file csvFail csvFail csvFail pdfFail "bytes" "xml"
      = Except.error (PyError.runtimeError "Ingestion failed: Unsupported format: xml") ∧
    read_file csvFail csvFail csvFail pdfFail "bytes" "csv"
      = Except.error (PyError.runtimeError "Ingestion failed: parse boom") := by
  exact ⟨rfl, rfl⟩

/-- C6 amended: for every declaredType outside {csv, excel, json, pdf},
read_file fails — but the ValueError raised for the unsupported tag is caught
by the catch-all handler and re-raised as the same RuntimeError type that
wraps parse failures, distinguishable only by its message text. -/
theorem C6_unsupported_format (pCsv pExcel pJson : FileObj → Except PyError Dataset)
    (pPdf : FileObj → Except PyError (List String)) (f : FileObj) (t : String)
    (h1 : t ≠ "csv") (h2 : t ≠ "excel") (h3 : t ≠ "json") (h4 : t ≠ "pdf") :
    read_file pCsv pExcel pJson pPdf f t
      = Except.error (PyError.runtimeError ("Ingestion failed: " ++ ("Unsupported format: " ++ t))) := by
  simp [read_file, h1, h2, h3, h4, pyStr]

/-- Witness for C6 (amended) at the concrete declared type "parquet". -/
theorem C6_unsupported_format_witness :
    read_file csvFail csvFail csvFail pdfFail "bytes" "parquet"
      = Except.error (PyError.runtimeError "Ingestion failed: Unsupported format: parquet") :=
  C6_unsupported_format csvFail csvFail csvFail pdfFail "bytes" "parquet"
    (by decide) (by decide) (by decide) (by decide)

/- ----- C7 ----- -/

/-- Committing only other names never makes a file appear for `name`. -/
theorem findStore_commitAll (ops : List (Dataset × String)) (store : Store) (name : String)
    (hstore : findStore store name = none) (hops : ∀ p ∈ ops, p.2 ≠ name) :
    findStore (commitAll ops store) name = none := by
  induction ops generalizing store with
  | nil => exact hstore
  | cons p t ih =>
      have hp : p.2 ≠ name := hops p (by simp)
      have hstep : findStore ((save_to_bronze store p.1 p.2).1) name = none := by
        simp [save_to_bronze, findStore, hp, hstore]
      have hfold : commitAll (p :: t) store = commitAll t ((save_to_bronze store p.1 p.2).1) := rfl
      rw [hfold]
      exact ih _ hstep (fun q hq => hops q (by simp [hq]))

/-- C7: loading a name that was never committed — starting from an empty data
lake, after any sequence of commits none of which used that name — returns the
empty dataset (zero rows, zero columns) rather than an error. -/
theorem C7_load_never_committed (ops : List (Dataset × String)) (name : String)
    (h : ∀ p ∈ ops, p.2 ≠ name) :
    load_dataset (commitAll ops []) name = emptyDataset ∧
    (load_dataset (commitAll ops []) name).rows.length = 0 ∧
    (load_dataset (commitAll ops []) name).cols.length = 0 := by
  have hf : findStore (commitAll ops []) name = none :=
    findStore_commitAll ops [] name rfl h
  refine ⟨?_, ?_, ?_⟩ <;> simp [load_dataset, hf, emptyDataset]

/-- Witness for C7 at a concrete input: after committing the sample frame
under "emails", loading "missing" yields the empty frame. -/
theorem C7_load_never_committed_witness :
    load_dataset (commitAll [(dfSample, "emails")] []) "missing" = emptyDataset ∧
    (load_dataset (commitAll [(dfSample, "emails")] []) "missing").rows.length = 0 ∧
    (load_dataset (commitAll [(dfSample, "emails")] []) "missing").cols.length = 0 :=
  C7_load_never_committed [(dfSample, "emails")] "missing" (by decide)

/- ----- C8 ----- -/

/-- C8: round-trip through the columnar file — loading a name immediately
after committing a dataset under it returns a dataset with the same column
names, the same column order, and the same cell values as the committed one. -/
theorem C8_roundtrip (store : Store) (df : Dataset) (name : String) :
    (load_dataset (save_to_bronze store df name).1 name).cols = df.cols ∧
    (load_dataset (save_to_bronze store df name).1 name).rows = df.rows := by
  constructor <;> simp [load_dataset, save_to_bronze, findStore, withDefaultIndex]

/- ----- C9 ----- -/

/-- A one-row frame whose index label is 5 rather than the positional 0. -/
def dfShifted : Dataset :=
  { cols := ["a"], idx := [Cell.int 5], rows := [[Cell.str "x"]] }

/-- C9 counterexample: the indexer tags each vector with the stringified
dataframe index label of its row, so a dataset whose first row carries index
label 5 gets id "5" — not the "0" that the row's positional index requires. -/
theorem C9_counterexample :
    index_data dfShifted "demo_collection" "a"
      = Except.ok [{ id := "5", document := "x", metadata := [("a", Cell.str "x")] }] ∧
    ("5" : String) ≠ "0" := by
  exact ⟨rfl, by decide⟩

/-- C9 amended: each inserted vector's id is the stringified index label of
its row; when the dataframe carries the default range index 0..n-1 (as a
freshly parsed csv or a parquet reload does) these coincide with the rows'
positional indices rendered as strings. -/
theorem C9_ids_are_index_labels (df : Dataset) (coll c : String) (j : Nat)
    (hj : df.cols.findIdx? (fun x => x == c) = some j)
    (hlen : df.idx.length = df.rows.length) :
    ∃ es, index_data df coll c = Except.ok es ∧
      es.map (fun e => e.id) = df.idx.map cellStr ∧
      (df.idx = rangeIdx df.rows.length →
        es.map (fun e => e.id)
          = (List.range df.rows.length).map (fun i => cellStr (Cell.int (Int.ofNat i)))) := by
  refine ⟨(df.idx.zip df.rows).map (fun p =>
      { id := cellStr p.1, document := cellStr (p.2.getD j Cell.null),
        metadata := df.cols.zip p.2 }), by simp [index_data, hj], ?_⟩
  have hz : (df.idx.zip df.rows).map Prod.fst = df.idx :=
    List.map_fst_zip _ _ (le_of_eq hlen)
  have hids : ((df.idx.zip df.rows).map (fun p =>
      ({ id := cellStr p.1, document := cellStr (p.2.getD j Cell.null),
         metadata := df.cols.zip p.2 } : VectorEntry))).map (fun e => e.id)
      = df.idx.map cellStr := by
    calc ((df.idx.zip df.rows).map (fun p =>
            ({ id := cellStr p.1, document := cellStr (p.2.getD j Cell.null),
               metadata := df.cols.zip p.2 } : VectorEntry))).map (fun e => e.id)
        = (df.idx.zip df.rows).map (fun p => cellStr p.1) := by
          rw [List.map_map]
          rfl
      _ = ((df.idx.zip df.rows).map Prod.fst).map cellStr := by
          rw [List.map_map]
          rfl
      _ = df.idx.map cellStr := by rw [hz]
  refine ⟨hids, ?_⟩
  intro hidx
  rw [hids, hidx, rangeIdx, List.map_map]
  rfl

/-- Witness for C9 (amended) at a concrete input: the sample frame carries the
default range index, so its ids are "0" and "1". -/
theorem C9_ids_are_index_labels_witness :
    ∃ es, index_data dfSample "demo_collection" "a" = Except.ok es ∧
      es.map (fun e => e.id) = ["0", "1"] := by
  obtain ⟨es, h1, h2, h3⟩ :=
    C9_ids_are_index_labels dfSample "demo_collection" "a" 0 (by decide) (by decide)
  refine ⟨es, h1, ?_⟩
  rw [h2]
  decide

/- ----- C1 ----- -/

/-- C1 counterexample: at stage 3 the "Proceed to Transformation" action
succeeds — it advances the stage from 3 to 4 — yet it invokes no leaf
component and leaves the log exactly as it was, refuting "a successful action
invokes exactly one leaf component call [and] appends exactly one log entry". -/
theorem C1_counterexample :
    (stepApp extAI "10:00:00" stage3State [] Action.proceed).1.current_step = 4 ∧
    (stepApp extAI "10:00:00" stage3State [] Action.proceed).1.logs = stage3State.logs := by
  exact ⟨rfl, rfl⟩

/-- C1 amended: per-action characterization of the controller. The ingest,
commit and build-index actions each invoke one leaf call and, on success,
append one log entry and advance the stage by exactly 1; the two bare advance
actions (stage 3 to 4 and stage 4 to 5) invoke no leaf call and append no log
entry while advancing by 1; the transformation action invokes one leaf call
and appends one log entry but leaves the stage unchanged; a failed action
leaves stage, dataset and dataset name unchanged, except that a failed ingest
additionally appends one error log entry; reset returns to stage 0 clearing
the dataset. -/
theorem C1_step_characterization (E : Ext) (now : String) (s : AppState) (store : Store) :
    (∀ fn file df, s.current_step = 0 →
       read_file E.pCsv E.pExcel E.pJson E.pPdf file (fileType fn) = Except.ok df →
       stepApp E now s store (Action.ingest fn file) =
         ({ s with data_state := some df, dataset_name := baseName fn, logs := s.logs ++ [mkLogEntry now ("Ingested " ++ toString df.rows.length ++ " rows from " ++ fn)], current_step := 1 }, store)) ∧
    (∀ fn file e, s.current_step = 0 →
       read_file E.pCsv E.pExcel E.pJson E.pPdf file (fileType fn) = Except.error e →
       stepApp E now s store (Action.ingest fn file) =
         ({ s with logs := s.logs ++ [mkLogEntry now ("Error: " ++ pyStr e)] }, store)) ∧
    (∀ df, s.current_step = 1 → s.data_state = some df →
       stepApp E now s store (Action.commit true) =
         ({ s with logs := s.logs ++ [mkLogEntry now ("Data persisted to " ++ parquetPath s.dataset_name)], current_step := 2 }, (s.dataset_name, withDefaultIndex df) :: store)) ∧
    (s.current_step = 1 →
       stepApp E now s store (Action.commit false) = (s, store)) ∧
    (∀ c df es, s.current_step = 2 → s.data_state = some df →
       index_data df "demo_collection" c = Except.ok es →
       stepApp E now s store (Action.buildIndex c true) =
         ({ s with logs := s.logs ++ [mkLogEntry now ("Vector index built on column: " ++ c)], index_col := some c, current_step := 3 }, store)) ∧
    (∀ c, s.current_step = 2 →
       stepApp E now s store (Action.buildIndex c false) = (s, store)) ∧
    (s.current_step = 3 →
       stepApp E now s store Action.proceed = ({ s with current_step := 4 }, store)) ∧
    (∀ rn ri df, s.current_step = 4 → s.data_state = some df →
       stepApp E now s store (Action.executeAgentJob rn ri) =
         ({ s with data_state := some (apply_business_rule E.api_key E.llm E.engine df ri rn), logs := s.logs ++ [mkLogEntry now ("Applied rule: " ++ rn)] }, store)) ∧
    (s.current_step = 4 →
       stepApp E now s store Action.finalize = ({ s with current_step := 5 }, store)) ∧
    (s.current_step = 5 →
       stepApp E now s store Action.reset =
         ({ s with current_step := 0, data_state := none }, store)) := by
  refine ⟨?_, ?_, ?_, ?_, ?_, ?_, ?_, ?_, ?_, ?_⟩
  · intro fn file df h hr
    simp [stepApp, h, hr, logMsg]
  · intro fn file e h hr
    simp [stepApp, h, hr, logMsg]
  · intro df h hd
    simp [stepApp, h, hd, logMsg, save_to_bronze]
  · intro h
    simp only [stepApp, h, if_true]
    cases s.data_state <;> simp
  · intro c df es h hd hi
    simp [stepApp, h, hd, hi, logMsg]
  · intro c h
    simp only [stepApp, h, if_true]
    cases hd : s.data_state with
    | none => simp
    | some df =>
        cases hi : index_data df "demo_collection" c <;> simp [hi]
  · intro h
    simp [stepApp, h]
  · intro rn ri df h hd
    simp [stepApp, h, hd, logMsg]
  · intro h
    simp [stepApp, h]
  · intro h
    simp [stepApp, h]

/-- Witness for C1 (amended) at concrete inputs: the bare advance at stage 3
and the reset at stage 5, each with its stage hypothesis discharged. -/
theorem C1_step_characterization_witness :
    stepApp extAI "10:00:00" stage3State [] Action.proceed
      = ({ stage3State with current_step := 4 }, []) ∧
    stepApp extAI "10:00:00" stage5State [] Action.reset
      = ({ stage5State with current_step := 0, data_state := none }, []) :=
  ⟨(C1_step_characterization extAI "10:00:00" stage3State []).2.2.2.2.2.2.1 rfl,
   (C1_step_characterization extAI "10:00:00" stage5State []).2.2.2.2.2.2.2.2.2 rfl⟩

/- ----- C2 ----- -/

/-- C2 counterexample: reset from stage 5 returns to stage 0 and clears the
dataset, but the dataset name "sales" survives the reset instead of being
cleared back to the initial name. -/
theorem C2_counterexample :
    (stepApp extAI "10:05:00" stage5State [] Action.reset).1.current_step = 0 ∧
    (stepApp extAI "10:05:00" stage5State [] Action.reset).1.data_state = none ∧
    (stepApp extAI "10:05:00" stage5State [] Action.reset).1.dataset_name = "sales" ∧
    initState.dataset_name = "dataset" := by
  exact ⟨rfl, rfl, rfl, rfl⟩

/-- C2 amended: the reset action, offered at stage 5, returns the controller
to stage 0 and clears the held dataset; it leaves the dataset name (as well as
the log and the chosen index column) unchanged. -/
theorem C2_reset_behaviour (E : Ext) (now : String) (s : AppState) (store : Store)
    (h : s.current_step = 5) :
    stepApp E now s store Action.reset
      = ({ s with current_step := 0, data_state := none }, store) ∧
    (stepApp E now s store Action.reset).1.dataset_name = s.dataset_name ∧
    (stepApp E now s store Action.reset).1.logs = s.logs ∧
    (stepApp E now s store Action.reset).1.index_col = s.index_col := by
  refine ⟨?_, ?_, ?_, ?_⟩ <;> simp [stepApp, h]

/-- Witness for C2 (amended) at a concrete input: resetting the stage-5
session keeps the name "sales" and the old log entry. -/
theorem C2_reset_behaviour_witness :
    stepApp extAI "10:05:00" stage5State [] Action.reset
      = ({ stage5State with current_step := 0, data_state := none }, []) ∧
    (stepApp extAI "10:05:00" stage5State [] Action.reset).1.dataset_name
      = stage5State.dataset_name :=
  ⟨(C2_reset_behaviour extAI "10:05:00" stage5State [] rfl).1,
   (C2_reset_behaviour extAI "10:05:00" stage5State [] rfl).2.1⟩

/- ----- C10 ----- -/

/-- C10: the controller's log is append-only — every action extends the log by
a possibly empty suffix, never removing or modifying an existing entry — and
the reset action leaves the log exactly unchanged, so log entries from a
previous run survive a reset. -/
theorem C10_log_append_only (E : Ext) (now : String) (s : AppState) (store : Store)
    (a : Action) :
    (∃ t, (stepApp E now s store a).1.logs = s.logs ++ t) ∧
    (stepApp E now s store Action.reset).1.logs = s.logs := by
  constructor
  · cases a <;> simp only [stepApp, logMsg] <;>
      (repeat' split) <;>
      first
        | exact ⟨_, rfl⟩
        | (refine ⟨[], ?_⟩; simp)
  · simp only [stepApp]
    split <;> rfl

end ADP
